import Mathlib

/-
Verification of the backlight CLI client (src/tools/backlight.py).

The program is a thin D-Bus client with two operations:
  --status            read the Backlight property and pretty-print it
  --set CONNECTOR V   read the Backlight property, then call SetBacklight
                      with the serial just read, the connector and the value

We embed the program shallowly.  The remote service is modelled by the
value its Backlight property read returns (a serial and an ordered list
of connector property maps).  A run of the program produces the ordered
list of IPC calls issued, the lines printed to standard output, and a
success flag (true corresponds to exit code 0, false to a non-zero exit:
an argparse error or an uncaught Python exception).

IPC granularity: dbus.SessionBus() together with bus.get_object (the body
of get_display_config) is one connect event; the Properties.Get call is
one readBacklight event; the SetBacklight method call is one setBacklight
event carrying exactly the arguments placed on the wire.
-/

set_option autoImplicit false

namespace Backlight

/-- A value in a connector property map: the decoded D-Bus values are
strings or integers. -/
inductive Value where
  | str (s : String)
  | int (n : Int)
deriving DecidableEq, Repr

/-- How Python prints such a value in an f-string (str of the value). -/
def Value.toStr : Value → String
  | .str s => s
  | .int n => toString n

/-- A connector property map: an insertion-ordered mapping from property
name to value, as decoded from the a\x7bsv\x7d D-Bus dictionary. -/
abbrev ConnectorMap := List (String × Value)

/-- The decoded Backlight property: (serial, connectors).  The serial on
the wire is a uint32, so it is a natural number below 2 to the 32. -/
structure BacklightState where
  serial : Nat
  connectors : List ConnectorMap
deriving DecidableEq, Repr

/-- One IPC interaction issued by the client. -/
inductive IPC where
  | connect
  | readBacklight
  | setBacklight (serial : Nat) (connector : String) (value : Int)
deriving DecidableEq, Repr

/-- Result of one program run: IPC calls in order, stdout lines in order,
and whether the run completed (exit code 0) or failed. -/
structure RunResult where
  trace : List IPC
  output : List String
  ok : Bool
deriving DecidableEq, Repr

/-- Python dict lookup m[k] on the decoded dictionary, as an association
list lookup (dict keys are unique, so first match is the match). -/
def lookupProp (k : String) : ConnectorMap → Option Value
  | [] => none
  | (p, v) :: rest => if p = k then some v else lookupProp k rest

/-- The single-quote character, used by the status output format. -/
def quoteCh : String := String.singleton (Char.ofNat 39)

/-- The line printed for one property: two spaces, name, colon, value. -/
def propLine (pv : String × Value) : String :=
  "  " ++ pv.1 ++ ": " ++ pv.2.toStr

/-- The inner for-loop of do_status: iterate the property map in
insertion order, skip the key "connector", print every other property. -/
def propLoop : ConnectorMap → List String
  | [] => []
  | pv :: rest =>
    if pv.1 = "connector" then propLoop rest
    else propLine pv :: propLoop rest

/-- The block header line for a connector name. -/
def connHeader (c : String) : String :=
  "Connector " ++ quoteCh ++ c ++ quoteCh ++ ":"

/-- The outer for-loop of do_status.  For each map it evaluates
backlight["connector"]; a missing key raises KeyError, which aborts the
run right there: nothing of the offending block (or any later block) is
printed and the run fails.  Returns (lines printed, completed?). -/
def connectorLoop : List ConnectorMap → List String × Bool
  | [] => ([], true)
  | m :: rest =>
    match lookupProp "connector" m with
    | none => ([], false)
    | some c =>
      let r := connectorLoop rest
      (connHeader c.toStr :: (propLoop m ++ r.1), r.2)

/-- The serial line printed first by do_status. -/
def serialLine (n : Nat) : String := "Serial: " ++ toString n

/-- do_status: get_backlight (one connect, one property read), print the
serial, then the connector loop. -/
def do_status (svc : BacklightState) : RunResult :=
  let r := connectorLoop svc.connectors
  ⟨[IPC.connect, IPC.readBacklight], serialLine svc.serial :: r.1, r.2⟩

/-- Value of a decimal digit character. -/
def digitVal (c : Char) : Nat := c.toNat - 48

/-- Continuation of the digit part of a Python integer literal: digits,
with single underscores allowed between digits. -/
def digitsRest (acc : Nat) : List Char → Option Nat
  | [] => some acc
  | '_' :: c :: rest =>
    if c.isDigit then digitsRest (acc * 10 + digitVal c) rest else none
  | c :: rest =>
    if c.isDigit then digitsRest (acc * 10 + digitVal c) rest else none

/-- The digit part of a Python integer literal: at least one digit. -/
def digitpart : List Char → Option Nat
  | [] => none
  | c :: rest => if c.isDigit then digitsRest (digitVal c) rest else none

/-- Python int(s) on a string: strip surrounding whitespace, optional
sign, then a base-10 digit part.  Returns none when Python raises
ValueError. -/
def intOfStr (s : String) : Option Int :=
  let cs := ((s.data.dropWhile Char.isWhitespace).reverse.dropWhile
    Char.isWhitespace).reverse
  match cs with
  | '+' :: rest => (digitpart rest).map fun n => (n : Int)
  | '-' :: rest => (digitpart rest).map fun n => -(n : Int)
  | rest => (digitpart rest).map fun n => (n : Int)

/-- dbus.Int32(s) on a string: Python int conversion followed by the
signed 32-bit range check (OverflowError outside it). -/
def int32OfStr (s : String) : Option Int :=
  match intOfStr s with
  | none => none
  | some n => if -2147483648 ≤ n ∧ n ≤ 2147483647 then some n else none

/-- do_set: a connect from the get_display_config call at the top of
do_set, then get_backlight (connect and read), then set_backlight, which
connects again and evaluates dbus.Int32(value) before the method call is
issued.  A value that does not convert raises there: the read has
happened, the write has not.  On success the write carries the serial
exactly as read. -/
def do_set (svc : BacklightState) (connector value : String) : RunResult :=
  match int32OfStr value with
  | none =>
    ⟨[IPC.connect, IPC.connect, IPC.readBacklight, IPC.connect], [], false⟩
  | some n =>
    ⟨[IPC.connect, IPC.connect, IPC.readBacklight, IPC.connect,
      IPC.setBacklight svc.serial connector n], [], true⟩

/-- The argparse result: the store_true flag and the optional two-string
list of --set (argparse does not parse the value as an integer: the
declared type is str). -/
structure Args where
  status : Bool
  set : Option (String × String)
deriving DecidableEq, Repr

/-- A token argparse treats as a negative number: a dash followed either
by one or more digits, or by zero or more digits, a dot and one or more
digits (the two alternatives of the argparse matcher).  This parser has
no numeric-looking option strings, so such tokens count as argument
values. -/
def isNegNum (s : String) : Bool :=
  match s.data with
  | '-' :: ds =>
    (!ds.isEmpty && ds.all Char.isDigit) ||
    (match ds.dropWhile Char.isDigit with
     | '.' :: frac => !frac.isEmpty && frac.all Char.isDigit
     | _ => false)
  | _ => false

/-- A token argparse treats as an option rather than an argument value:
it begins with a dash and has at least two characters, is not a negative
number, and contains no space. -/
def optionLike (s : String) : Bool :=
  (match s.data with
   | '-' :: _ :: _ => true
   | _ => false) && !isNegNum s && !s.data.contains ' '

/-- The argparse loop over the command line: --status stores true, --set
consumes exactly the next two argument-looking tokens, anything else is
a parse error (usage message and exit code 2).  The -h flag is outside
the claims and is treated as a parse failure here. -/
def parseArgsAux : Args → List String → Option Args
  | a, [] => some a
  | a, "--status" :: rest => parseArgsAux { a with status := true } rest
  | a, "--set" :: c :: v :: rest =>
    if optionLike c || optionLike v then none
    else parseArgsAux { a with set := some (c, v) } rest
  | _, _ => none

/-- The usage line argparse generates for this parser. -/
def usageLine : String :=
  "usage: backlight.py [-h] [--status] [--set connector value]"

/-- The whole program: parse the command line, then the main dispatch of
the source: if args.status then do_status, elif args.set then do_set,
else print usage and exit 0. -/
def runCLI (svc : BacklightState) (argv : List String) : RunResult :=
  match parseArgsAux ⟨false, none⟩ argv with
  | none => ⟨[], [], false⟩
  | some a =>
    if a.status then do_status svc
    else
      match a.set with
      | some (c, v) => do_set svc c v
      | none => ⟨[], [usageLine], true⟩

/-- The block a connector map contributes to the status output: its
header line followed by its property lines. -/
def blockLines (m : ConnectorMap) : List String :=
  connHeader ((lookupProp "connector" m).getD (Value.str "")).toStr ::
    propLoop m

/-- The concrete service state of the end-to-end scenarios of the spec:
serial 7 and one connector eDP-1 with brightness 50 and max 100. -/
def svc0 : BacklightState :=
  ⟨7, [[("connector", Value.str "eDP-1"), ("brightness", Value.int 50),
        ("max", Value.int 100)]]⟩

/-- A well-formed connector map, used by concrete instantiations. -/
def mGood : ConnectorMap :=
  [("connector", Value.str "HDMI-1"), ("brightness", Value.int 10)]

/-- A connector map with no "connector" key. -/
def mBad : ConnectorMap := [("brightness", Value.int 5)]

/-- A service state whose second connector map lacks the connector key. -/
def svcBad : BacklightState := ⟨3, [mGood, mBad]⟩

theorem connectorLoop_ok (ms : List ConnectorMap) :
    (connectorLoop ms).2 = true →
    (connectorLoop ms).1 = ms.flatMap blockLines := by
  induction ms with
  | nil => intro _; rfl
  | cons m rest ih =>
    intro h
    cases hm : lookupProp "connector" m with
    | none => simp [connectorLoop, hm] at h
    | some c =>
      have h2 : (connectorLoop rest).2 = true := by
        simpa [connectorLoop, hm] using h
      simp [connectorLoop, hm, blockLines, ih h2]

theorem connectorLoop_missing (pre : List ConnectorMap) :
    ∀ m post, (∀ m2 ∈ pre, (lookupProp "connector" m2).isSome = true) →
    lookupProp "connector" m = none →
    connectorLoop (pre ++ m :: post) = (pre.flatMap blockLines, false) := by
  induction pre with
  | nil =>
    intro m post _ hm
    simp [connectorLoop, hm]
  | cons p rest ih =>
    intro m post hpre hm
    have hp : (lookupProp "connector" p).isSome = true :=
      hpre p (by simp)
    cases hc : lookupProp "connector" p with
    | none => rw [hc] at hp; simp at hp
    | some c =>
      have hr := ih m post (fun m2 h2 => hpre m2 (by simp [h2])) hm
      simp [connectorLoop, hc, blockLines, hr]

theorem propLoop_filter (m : ConnectorMap) :
    propLoop m = (m.filter fun pv => pv.1 ≠ "connector").map propLine := by
  induction m with
  | nil => rfl
  | cons pv rest ih =>
    by_cases h : pv.1 = "connector" <;>
      simp [propLoop, h, ih, List.filter_cons]

theorem connectorLoop_total (ms : List ConnectorMap)
    (h : ∀ m ∈ ms, (lookupProp "connector" m).isSome = true) :
    (connectorLoop ms).2 = true := by
  induction ms with
  | nil => rfl
  | cons m rest ih =>
    have hm := h m (by simp)
    cases hc : lookupProp "connector" m with
    | none => rw [hc] at hm; simp at hm
    | some c =>
      simp only [connectorLoop, hc]
      exact ih (fun m2 h2 => h m2 (by simp [h2]))

/-- C3: for every successful status query, the output is the serial line
of the serial returned by the service followed by exactly one block per
connector entry, in the order the service returned them. -/
theorem c3_status_output (svc : BacklightState)
    (h : (runCLI svc ["--status"]).ok = true) :
    (runCLI svc ["--status"]).output =
      serialLine svc.serial :: svc.connectors.flatMap blockLines := by
  have h2 : (connectorLoop svc.connectors).2 = true := h
  show serialLine svc.serial :: (connectorLoop svc.connectors).1 = _
  rw [connectorLoop_ok svc.connectors h2]

/-- C3 witness: the concrete service state svc0 evaluates the theorem. -/
theorem c3_witness :
    (runCLI svc0 ["--status"]).ok = true ∧
    (runCLI svc0 ["--status"]).output =
      serialLine svc0.serial :: svc0.connectors.flatMap blockLines :=
  ⟨rfl, c3_status_output svc0 rfl⟩

/-- C4: in the block printed for a connector map, the key "connector"
appears only in the header line; the property lines are exactly the
pairs whose key is not "connector", in insertion order. -/
theorem c4_connector_suppressed (m : ConnectorMap) :
    blockLines m =
      connHeader ((lookupProp "connector" m).getD (Value.str "")).toStr ::
        (m.filter fun pv => pv.1 ≠ "connector").map propLine := by
  rw [blockLines, propLoop_filter]

/-- C8: when VALUE does not convert to an integer, do_set fails after the
Backlight read (the read is in the trace) and before the write: no
SetBacklight event occurs, so the remote state is unchanged. -/
theorem c8_set_fail_after_read (svc : BacklightState) (c v : String)
    (h : intOfStr v = none) :
    (do_set svc c v).trace =
      [IPC.connect, IPC.connect, IPC.readBacklight, IPC.connect] ∧
    (do_set svc c v).ok = false ∧
    ∀ s c2 n, IPC.setBacklight s c2 n ∉ (do_set svc c v).trace := by
  have h32 : int32OfStr v = none := by simp [int32OfStr, h]
  refine ⟨?_, ?_, ?_⟩ <;> simp [do_set, h32]

/-- C8 witness: evaluated at connector eDP-1 and value abc. -/
theorem c8_witness :
    intOfStr "abc" = none ∧
    ((do_set svc0 "eDP-1" "abc").trace =
      [IPC.connect, IPC.connect, IPC.readBacklight, IPC.connect] ∧
    (do_set svc0 "eDP-1" "abc").ok = false ∧
    ∀ s c2 n, IPC.setBacklight s c2 n ∉ (do_set svc0 "eDP-1" "abc").trace) :=
  ⟨rfl, c8_set_fail_after_read svc0 "eDP-1" "abc" rfl⟩

/-- C9: if the service response contains a connector map without the key
"connector", the status run fails at that block, after printing the
serial line and the complete blocks of every preceding connector and
nothing more; and when every map has the key, the failure branch is
unreachable (the run succeeds). -/
theorem c9_missing_connector :
    (∀ (svc : BacklightState) (pre : List ConnectorMap)
        (m : ConnectorMap) (post : List ConnectorMap),
      svc.connectors = pre ++ m :: post →
      (∀ m2 ∈ pre, (lookupProp "connector" m2).isSome = true) →
      lookupProp "connector" m = none →
      runCLI svc ["--status"] =
        ⟨[IPC.connect, IPC.readBacklight],
         serialLine svc.serial :: pre.flatMap blockLines, false⟩) ∧
    (∀ svc : BacklightState,
      (∀ m ∈ svc.connectors, (lookupProp "connector" m).isSome = true) →
      (runCLI svc ["--status"]).ok = true) := by
  constructor
  · intro svc pre m post hs hpre hm
    have hloop := connectorLoop_missing pre m post hpre hm
    have hshape : runCLI svc ["--status"] =
        ⟨[IPC.connect, IPC.readBacklight],
         serialLine svc.serial :: (connectorLoop svc.connectors).1,
         (connectorLoop svc.connectors).2⟩ := rfl
    rw [hshape, hs, hloop]
  · intro svc hall
    show (connectorLoop svc.connectors).2 = true
    exact connectorLoop_total svc.connectors hall

/-- C9 witness: svcBad has a good first map and a second map without the
connector key: the run prints the serial line and the first block only
and fails; on svc0, where every map has the key, the run succeeds. -/
theorem c9_witness :
    runCLI svcBad ["--status"] =
      ⟨[IPC.connect, IPC.readBacklight],
       serialLine svcBad.serial :: [mGood].flatMap blockLines, false⟩ ∧
    (runCLI svc0 ["--status"]).ok = true :=
  ⟨c9_missing_connector.1 svcBad [mGood] mBad [] rfl (by decide) rfl,
   c9_missing_connector.2 svc0 (by decide)⟩

/-- C10: a status invocation issues exactly one connect and one Backlight
property read and nothing else; in particular no SetBacklight call is
ever issued on the status path, whatever the service returns. -/
theorem c10_status_never_writes (svc : BacklightState) :
    (runCLI svc ["--status"]).trace = [IPC.connect, IPC.readBacklight] := by
  rfl

/-- C7: invoking with neither flag prints the usage text to standard
output, exits with code 0 (ok = true) and issues zero IPC calls. -/
theorem c7_no_args_usage (svc : BacklightState) :
    runCLI svc [] = ⟨[], [usageLine], true⟩ := by
  rfl

/-- C5: on the service response (serial 7, one connector eDP-1 with
brightness 50 and max 100), --status prints exactly the four lines
Serial: 7 / Connector (quote)eDP-1(quote): / two-space brightness: 50 /
two-space max: 100, and succeeds. -/
theorem c5_concrete_status :
    runCLI svc0 ["--status"] =
      ⟨[IPC.connect, IPC.readBacklight],
       ["Serial: 7",
        "Connector " ++ quoteCh ++ "eDP-1" ++ quoteCh ++ ":",
        "  brightness: 50",
        "  max: 100"], true⟩ := by
  rfl

end Backlight
